import Mathlib

/-!
Shallow embedding of the GridQstarter behind-the-meter battery dispatch
engine, and a verification of the main properties of its specification.

Modelling conventions:
* Real-valued quantities of the Python program (powers in kW, energies in
  kWh, prices in GBP/kWh) are modelled as rationals (`ℚ`), so every
  arithmetic statement below is about exact arithmetic.
* A pandas dataframe is modelled as a `List` of row structures; a column
  is the corresponding field.
* A Python function that can raise is modelled as returning `Option` or
  `Except`: `some msg` / `.error e` stands for the raised exception,
  `none` / `.ok v` for a normal return.
* The numeric values interpolated into Python exception messages are
  elided; only the fixed text naming the violated quantity is kept.
-/

namespace GridQ

/-- Tolerance for numerical comparisons, from `core/constants.py`
(`NUMERICAL_TOLERANCE = 1e-6`). -/
def NUMERICAL_TOLERANCE : ℚ := 1 / 1000000

/-- Battery asset configuration, from `core/schemas.py` (`BatteryConfig`). -/
structure BatteryConfig where
  capacity_kwh : ℚ
  max_charge_kw : ℚ
  max_discharge_kw : ℚ
  charge_efficiency : ℚ
  discharge_efficiency : ℚ
  min_soc_frac : ℚ
  max_soc_frac : ℚ
  initial_soc_frac : ℚ
  degradation_cost_gbp_per_kwh : ℚ
  deriving DecidableEq

/-- Site configuration, from `core/schemas.py` (`SiteConfig`).  The grid
caps are optional, as in the source. -/
structure SiteConfig where
  site_id : String
  battery : BatteryConfig
  max_grid_import_kw : Option ℚ
  max_grid_export_kw : Option ℚ
  deriving DecidableEq

/-- Tariff configuration, from `core/schemas.py` (`TariffConfig`). -/
structure TariffConfig where
  flat_import_price_gbp_per_kwh : Option ℚ
  flat_export_price_gbp_per_kwh : Option ℚ
  demand_charge_enabled : Bool
  demand_charge_gbp_per_kw : ℚ
  deriving DecidableEq

/-- Run configuration, from `core/schemas.py` (`RunConfig`); only the
fields the embedded code reads are kept. -/
structure RunConfig where
  run_id : String
  timestep_minutes : ℕ
  tariff : TariffConfig
  deriving DecidableEq

/-- One row of the input timeseries (the required columns of
`core/constants.py`). -/
structure InputRow where
  load_kw : ℚ
  pv_kw : ℚ
  import_price_gbp_per_kwh : ℚ
  export_price_gbp_per_kwh : ℚ
  deriving DecidableEq

/-- One row of a dispatch dataframe: the input columns copied through
(`result = timeseries.copy()`) plus the five dispatch columns. -/
structure DispatchRow where
  load_kw : ℚ
  pv_kw : ℚ
  import_price_gbp_per_kwh : ℚ
  export_price_gbp_per_kwh : ℚ
  grid_import_kw : ℚ
  grid_export_kw : ℚ
  battery_charge_kw : ℚ
  battery_discharge_kw : ℚ
  soc_kwh : ℚ
  deriving DecidableEq

/-- Per-step energy-balance residual of a dispatch row, per the sign
convention documented in `core/constants.py`:
`load + charge + export − (pv + discharge + import)`. -/
def balanceResidual (r : DispatchRow) : ℚ :=
  r.load_kw + r.battery_charge_kw + r.grid_export_kw
    - (r.pv_kw + r.battery_discharge_kw + r.grid_import_kw)

/-- Embedding of `validate_dispatch_result` from `core/validate.py`.
`some msg` models `raise ValidationError(msg)`; `none` models a normal
return.  The checks appear in exactly the source order: non-negativity of
the four power columns, SOC lower and upper bound, charge and discharge
power limits, then the optional grid caps. -/
def validate_dispatch_result (df : List DispatchRow) (site : SiteConfig) : Option String :=
  if df.any (fun r => r.grid_import_kw < -NUMERICAL_TOLERANCE) then
    some "grid_import_kw has negative values"
  else if df.any (fun r => r.grid_export_kw < -NUMERICAL_TOLERANCE) then
    some "grid_export_kw has negative values"
  else if df.any (fun r => r.battery_charge_kw < -NUMERICAL_TOLERANCE) then
    some "battery_charge_kw has negative values"
  else if df.any (fun r => r.battery_discharge_kw < -NUMERICAL_TOLERANCE) then
    some "battery_discharge_kw has negative values"
  else if df.any (fun r =>
      r.soc_kwh < site.battery.min_soc_frac * site.battery.capacity_kwh - NUMERICAL_TOLERANCE) then
    some "SOC below minimum"
  else if df.any (fun r =>
      r.soc_kwh > site.battery.max_soc_frac * site.battery.capacity_kwh + NUMERICAL_TOLERANCE) then
    some "SOC above maximum"
  else if df.any (fun r =>
      r.battery_charge_kw > site.battery.max_charge_kw + NUMERICAL_TOLERANCE) then
    some "Charge power exceeds limit"
  else if df.any (fun r =>
      r.battery_discharge_kw > site.battery.max_discharge_kw + NUMERICAL_TOLERANCE) then
    some "Discharge power exceeds limit"
  else if (match site.max_grid_import_kw with
      | some cap => df.any (fun r => r.grid_import_kw > cap + NUMERICAL_TOLERANCE)
      | none => false) then
    some "Grid import exceeds limit"
  else if (match site.max_grid_export_kw with
      | some cap => df.any (fun r => r.grid_export_kw > cap + NUMERICAL_TOLERANCE)
      | none => false) then
    some "Grid export exceeds limit"
  else
    none

/-- The family of bounds that `validate_dispatch_result` checks, written
as one proposition. -/
def CheckedBounds (df : List DispatchRow) (site : SiteConfig) : Prop :=
  (∀ r ∈ df, -NUMERICAL_TOLERANCE ≤ r.grid_import_kw) ∧
  (∀ r ∈ df, -NUMERICAL_TOLERANCE ≤ r.grid_export_kw) ∧
  (∀ r ∈ df, -NUMERICAL_TOLERANCE ≤ r.battery_charge_kw) ∧
  (∀ r ∈ df, -NUMERICAL_TOLERANCE ≤ r.battery_discharge_kw) ∧
  (∀ r ∈ df, site.battery.min_soc_frac * site.battery.capacity_kwh - NUMERICAL_TOLERANCE ≤ r.soc_kwh) ∧
  (∀ r ∈ df, r.soc_kwh ≤ site.battery.max_soc_frac * site.battery.capacity_kwh + NUMERICAL_TOLERANCE) ∧
  (∀ r ∈ df, r.battery_charge_kw ≤ site.battery.max_charge_kw + NUMERICAL_TOLERANCE) ∧
  (∀ r ∈ df, r.battery_discharge_kw ≤ site.battery.max_discharge_kw + NUMERICAL_TOLERANCE) ∧
  (∀ cap, site.max_grid_import_kw = some cap →
    ∀ r ∈ df, r.grid_import_kw ≤ cap + NUMERICAL_TOLERANCE) ∧
  (∀ cap, site.max_grid_export_kw = some cap →
    ∀ r ∈ df, r.grid_export_kw ≤ cap + NUMERICAL_TOLERANCE)

/-- Battery used in concrete examples; values from the repository's own
test fixtures (`tests/test_energy_balance.py`). -/
def exampleBattery : BatteryConfig where
  capacity_kwh := 10
  max_charge_kw := 5
  max_discharge_kw := 5
  charge_efficiency := 19 / 20
  discharge_efficiency := 19 / 20
  min_soc_frac := 1 / 10
  max_soc_frac := 9 / 10
  initial_soc_frac := 1 / 2
  degradation_cost_gbp_per_kwh := 0

/-- Site used in concrete examples: no grid caps. -/
def exampleSite : SiteConfig where
  site_id := "test_site"
  battery := exampleBattery
  max_grid_import_kw := none
  max_grid_export_kw := none

/-- A dispatch row whose flows are all zero while the load is 5 kW: its
energy-balance residual is 5, far beyond tolerance, and its SOC sits in
the middle of the allowed band. -/
def unbalancedRow : DispatchRow where
  load_kw := 5
  pv_kw := 0
  import_price_gbp_per_kwh := 0
  export_price_gbp_per_kwh := 0
  grid_import_kw := 0
  grid_export_kw := 0
  battery_charge_kw := 0
  battery_discharge_kw := 0
  soc_kwh := 5

/-- Charge power chosen in the excess-PV branch of the baseline: the
Python `charge_kw = min(net, max_charge)` with
`max_charge = min(max_charge_kw, (max_soc − soc) / (Δt · η_c))`. -/
def baselineCharge (b : BatteryConfig) (dt soc net : ℚ) : ℚ :=
  min net (min b.max_charge_kw
    ((b.max_soc_frac * b.capacity_kwh - soc) / (dt * b.charge_efficiency)))

/-- Discharge power chosen in the deficit branch of the baseline: the
Python `discharge_kw = min(deficit, max_discharge)` with
`max_discharge = min(max_discharge_kw, (soc − min_soc) / (Δt / η_d))`. -/
def baselineDischarge (b : BatteryConfig) (dt soc deficit : ℚ) : ℚ :=
  min deficit (min b.max_discharge_kw
    ((soc - b.min_soc_frac * b.capacity_kwh) / (dt / b.discharge_efficiency)))

/-- Pre-cap flows `(charge, discharge, grid_import, grid_export)` of one
baseline step, per the `if net > 0` branch split of the Python loop. -/
def baselineFlows (b : BatteryConfig) (dt soc : ℚ) (row : InputRow) : ℚ × ℚ × ℚ × ℚ :=
  if 0 < row.pv_kw - row.load_kw then
    (baselineCharge b dt soc (row.pv_kw - row.load_kw), 0, 0,
      row.pv_kw - row.load_kw - baselineCharge b dt soc (row.pv_kw - row.load_kw))
  else
    (0, baselineDischarge b dt soc (-(row.pv_kw - row.load_kw)),
      -(row.pv_kw - row.load_kw) - baselineDischarge b dt soc (-(row.pv_kw - row.load_kw)), 0)

/-- Clamp a grid flow to an optional site cap: the Python
`if cap is not None: x = min(x, cap)`. -/
def applyCap (x : ℚ) : Option ℚ → ℚ
  | some cap => min x cap
  | none => x

/-- Final SOC clamp of the baseline loop: the Python
`max(min_soc, min(max_soc, new_soc))`. -/
def clampSoc (b : BatteryConfig) (x : ℚ) : ℚ :=
  max (b.min_soc_frac * b.capacity_kwh) (min (b.max_soc_frac * b.capacity_kwh) x)

/-- One iteration of the baseline loop (`core/baseline.py`, lines 51-119):
branch on net PV position, apply the optional grid caps, update the SOC by
the dynamics equation and clamp it. -/
def baselineStep (site : SiteConfig) (dt soc : ℚ) (row : InputRow) : DispatchRow :=
  let f := baselineFlows site.battery dt soc row
  { load_kw := row.load_kw
    pv_kw := row.pv_kw
    import_price_gbp_per_kwh := row.import_price_gbp_per_kwh
    export_price_gbp_per_kwh := row.export_price_gbp_per_kwh
    grid_import_kw := applyCap f.2.2.1 site.max_grid_import_kw
    grid_export_kw := applyCap f.2.2.2 site.max_grid_export_kw
    battery_charge_kw := f.1
    battery_discharge_kw := f.2.1
    soc_kwh := clampSoc site.battery
      (soc + f.1 * dt * site.battery.charge_efficiency
        - f.2.1 * dt / site.battery.discharge_efficiency) }

/-- The baseline loop, threading the SOC through the rows. -/
def baselineLoop (site : SiteConfig) (dt : ℚ) (soc : ℚ) : List InputRow → List DispatchRow
  | [] => []
  | row :: rest =>
    let r := baselineStep site dt soc row
    r :: baselineLoop site dt r.soc_kwh rest

/-- Embedding of `compute_baseline_dispatch` from `core/baseline.py`. -/
def compute_baseline_dispatch (ts : List InputRow) (site : SiteConfig) (dt : ℚ) :
    List DispatchRow :=
  baselineLoop site dt (site.battery.initial_soc_frac * site.battery.capacity_kwh) ts

/-- Exact (tolerance-free) per-row bounds of the dispatch data model. -/
def RowBounds (r : DispatchRow) (site : SiteConfig) : Prop :=
  0 ≤ r.battery_charge_kw ∧ r.battery_charge_kw ≤ site.battery.max_charge_kw ∧
  0 ≤ r.battery_discharge_kw ∧ r.battery_discharge_kw ≤ site.battery.max_discharge_kw ∧
  0 ≤ r.grid_import_kw ∧ 0 ≤ r.grid_export_kw ∧
  site.battery.min_soc_frac * site.battery.capacity_kwh ≤ r.soc_kwh ∧
  r.soc_kwh ≤ site.battery.max_soc_frac * site.battery.capacity_kwh ∧
  (∀ c, site.max_grid_import_kw = some c → r.grid_import_kw ≤ c) ∧
  (∀ c, site.max_grid_export_kw = some c → r.grid_export_kw ≤ c)

/-- Configuration well-formedness, as guaranteed by the Pydantic schema
(`core/schemas.py`): positive timestep and efficiencies, non-negative
power limits, positive grid caps when present (here only non-negativity
is needed). -/
def WellFormedSite (site : SiteConfig) (dt : ℚ) : Prop :=
  0 < dt ∧ 0 < site.battery.charge_efficiency ∧ 0 < site.battery.discharge_efficiency ∧
  0 ≤ site.battery.max_charge_kw ∧ 0 ≤ site.battery.max_discharge_kw ∧
  (∀ c, site.max_grid_import_kw = some c → 0 ≤ c) ∧
  (∀ c, site.max_grid_export_kw = some c → 0 ≤ c)

/-- SOC-dynamics chain: each row's SOC equals the previous SOC updated by
`charge·η_c·Δt − discharge·Δt/η_d`, with the given starting SOC. -/
def socChain (b : BatteryConfig) (dt : ℚ) : ℚ → List DispatchRow → Prop
  | _, [] => True
  | prev, r :: rest =>
    r.soc_kwh = prev + r.battery_charge_kw * b.charge_efficiency * dt
        - r.battery_discharge_kw * dt / b.discharge_efficiency
      ∧ socChain b dt r.soc_kwh rest

/-- Input timeseries used in concrete examples (loads/PV/prices in the
range of the repository's test fixtures). -/
def exampleTs : List InputRow :=
  [⟨5, 2, 3 / 20, 1 / 20⟩, ⟨4, 6, 3 / 20, 1 / 20⟩]

/-- Battery sitting at its minimum SOC, so that the baseline cannot
discharge at all. -/
def cappedBattery : BatteryConfig where
  capacity_kwh := 10
  max_charge_kw := 5
  max_discharge_kw := 5
  charge_efficiency := 19 / 20
  discharge_efficiency := 19 / 20
  min_soc_frac := 1 / 10
  max_soc_frac := 9 / 10
  initial_soc_frac := 1 / 10
  degradation_cost_gbp_per_kwh := 0

/-- Site whose grid-import cap of 50 kW is binding for a 100 kW load. -/
def cappedSite : SiteConfig where
  site_id := "capped_site"
  battery := cappedBattery
  max_grid_import_kw := some 50
  max_grid_export_kw := none

/-- Input step with a 100 kW load and no PV. -/
def heavyLoadRow : InputRow where
  load_kw := 100
  pv_kw := 0
  import_price_gbp_per_kwh := 3 / 20
  export_price_gbp_per_kwh := 1 / 20

/-- Maximum of a list of rationals, modelling the pandas `.max()` of a
column.  The pandas maximum of an empty column is NaN; rows are nonempty
wherever the program takes a peak, so the `[]` case is an arbitrary
default and the theorems about peaks assume a nonempty dispatch. -/
def colMax : List ℚ → ℚ
  | [] => 0
  | x :: xs => xs.foldl max x

/-- Embedding of `compute_cost` from `core/metrics.py`:
`import_cost − export_revenue + demand_charge + degradation_cost`. -/
def compute_cost (dispatch : List DispatchRow) (site : SiteConfig) (run : RunConfig)
    (dt : ℚ) : ℚ :=
  let import_cost :=
    (dispatch.map (fun r => r.grid_import_kw * r.import_price_gbp_per_kwh * dt)).sum
  let export_revenue :=
    (dispatch.map (fun r => r.grid_export_kw * r.export_price_gbp_per_kwh * dt)).sum
  let demand_charge :=
    if run.tariff.demand_charge_enabled then
      colMax (dispatch.map (fun r => r.grid_import_kw)) * run.tariff.demand_charge_gbp_per_kw
    else 0
  let battery_throughput_kwh :=
    (dispatch.map (fun r => (r.battery_charge_kw + r.battery_discharge_kw) * dt)).sum
  let degradation_cost := battery_throughput_kwh * site.battery.degradation_cost_gbp_per_kwh
  import_cost - export_revenue + demand_charge + degradation_cost

/-- The dictionary returned by `compute_metrics`, as a structure. -/
structure Metrics where
  optimal_cost_gbp : ℚ
  baseline_cost_gbp : ℚ
  savings_gbp : ℚ
  savings_pct : ℚ
  optimal_peak_import_kw : ℚ
  baseline_peak_import_kw : ℚ
  peak_reduction_kw : ℚ
  battery_throughput_kwh : ℚ
  battery_cycles : ℚ
  total_import_kwh : ℚ
  total_export_kwh : ℚ
  deriving DecidableEq

/-- Embedding of `compute_metrics` from `core/metrics.py`. -/
def compute_metrics (optimal_dispatch baseline_dispatch : List DispatchRow)
    (site : SiteConfig) (run : RunConfig) (dt : ℚ) : Metrics :=
  let optimal_cost := compute_cost optimal_dispatch site run dt
  let baseline_cost := compute_cost baseline_dispatch site run dt
  let savings_gbp := baseline_cost - optimal_cost
  let savings_pct := if baseline_cost ≠ 0 then savings_gbp / baseline_cost * 100 else 0
  let optimal_peak_kw := colMax (optimal_dispatch.map (fun r => r.grid_import_kw))
  let baseline_peak_kw := colMax (baseline_dispatch.map (fun r => r.grid_import_kw))
  let battery_throughput_kwh :=
    (optimal_dispatch.map
      (fun r => (r.battery_charge_kw + r.battery_discharge_kw) * dt)).sum
  { optimal_cost_gbp := optimal_cost
    baseline_cost_gbp := baseline_cost
    savings_gbp := savings_gbp
    savings_pct := savings_pct
    optimal_peak_import_kw := optimal_peak_kw
    baseline_peak_import_kw := baseline_peak_kw
    peak_reduction_kw := baseline_peak_kw - optimal_peak_kw
    battery_throughput_kwh := battery_throughput_kwh
    battery_cycles := battery_throughput_kwh / (2 * site.battery.capacity_kwh)
    total_import_kwh := (optimal_dispatch.map (fun r => r.grid_import_kw * dt)).sum
    total_export_kwh := (optimal_dispatch.map (fun r => r.grid_export_kw * dt)).sum }

/-- Run configuration used in concrete examples. -/
def exampleRun : RunConfig where
  run_id := "test_run"
  timestep_minutes := 15
  tariff :=
    { flat_import_price_gbp_per_kwh := some (3 / 20)
      flat_export_price_gbp_per_kwh := some (1 / 20)
      demand_charge_enabled := false
      demand_charge_gbp_per_kw := 0 }

/-- Outcome of the call to the external LP solver inside `solve_model`:
either the solver raised an exception with the given message, or it
finished and `model.status` carries the given status string. -/
inductive SolverOutcome where
  | raised (msg : String)
  | finished (status : String)
  deriving DecidableEq

/-- Python exception values that `solve_model` can raise.  `model/solve.py`
uses only the builtin `RuntimeError`, in both of its failure paths. -/
inductive PyError where
  | runtimeError (msg : String)
  deriving DecidableEq

/-- The Python class of a raised exception: the only information a caller
catching by exception type can observe. -/
def errorClass : PyError → String
  | .runtimeError _ => "RuntimeError"

/-- Embedding of the error-handling control flow of `solve_model` from
`model/solve.py`: an exception from the solver is re-raised as
`RuntimeError("Solver failed: ...")`; a termination status other than
`"ok"` raises `RuntimeError("Solver returned non-optimal status: ...")`;
otherwise the solve succeeds. -/
def solve_model (outcome : SolverOutcome) : Except PyError Unit :=
  match outcome with
  | .raised e => .error (.runtimeError ("Solver failed: " ++ e))
  | .finished status =>
    if status ≠ "ok" then
      .error (.runtimeError ("Solver returned non-optimal status: " ++ status))
    else
      .ok ()

/-- Embedding of the import-price selection in `build_model`
(`model/build.py`, lines 31-36): the per-step timeseries column if the
dataframe has one, else the flat tariff price replicated, else a raised
`ValueError`. -/
def resolve_import_price (ts_col : Option (List ℚ)) (tariff : TariffConfig) (n : ℕ) :
    Except String (List ℚ) :=
  match ts_col with
  | some col => .ok col
  | none =>
    match tariff.flat_import_price_gbp_per_kwh with
    | some p => .ok (List.replicate n p)
    | none => .error "No import price provided in timeseries or tariff config"

/-- Embedding of the export-price selection in `build_model`
(`model/build.py`, lines 38-43). -/
def resolve_export_price (ts_col : Option (List ℚ)) (tariff : TariffConfig) (n : ℕ) :
    Except String (List ℚ) :=
  match ts_col with
  | some col => .ok col
  | none =>
    match tariff.flat_export_price_gbp_per_kwh with
    | some p => .ok (List.replicate n p)
    | none => .error "No export price provided in timeseries or tariff config"

/-- An assignment of values to the decision-variable families of the
model: the four per-step flow variables and the scalar peak variable. -/
structure DispatchAssign where
  grid_import : ℕ → ℚ
  grid_export : ℕ → ℚ
  battery_charge : ℕ → ℚ
  battery_discharge : ℕ → ℚ
  peak_demand : ℚ

/-- Optimization sense of the installed objective. -/
inductive ObjSense where
  | minimize
  | maximize
  deriving DecidableEq

/-- A linear objective, represented semantically by its value on each
assignment together with its sense. -/
structure LinObjective where
  value : DispatchAssign → ℚ
  sense : ObjSense

/-- Embedding of `add_objective` from `model/objective.py`: import cost
minus export revenue plus degradation cost, plus `peak·demand_rate` when
a peak variable was passed, minimized. -/
def add_objective (T : ℕ) (import_price export_price : ℕ → ℚ)
    (timestep_hours degradation_cost_gbp_per_kwh demand_charge_gbp_per_kw : ℚ)
    (has_peak : Bool) : LinObjective where
  value := fun σ =>
    let import_cost :=
      ∑ t ∈ Finset.range T, σ.grid_import t * import_price t * timestep_hours
    let export_revenue :=
      ∑ t ∈ Finset.range T, σ.grid_export t * export_price t * timestep_hours
    let degradation_cost :=
      ∑ t ∈ Finset.range T,
        (σ.battery_charge t + σ.battery_discharge t) * timestep_hours
          * degradation_cost_gbp_per_kwh
    let objective := import_cost - export_revenue + degradation_cost
    if has_peak then objective + σ.peak_demand * demand_charge_gbp_per_kw else objective
  sense := .minimize

/-- Number of extra scalar variables the builder introduces for demand
charges (`model/build.py`, lines 64-66): one `peak_demand_kw` variable
exactly when demand charges are enabled. -/
def build_peak_var_count (demand_charge_enabled : Bool) : ℕ :=
  if demand_charge_enabled then 1 else 0

/-- The peak constraints the builder adds (`model/build.py`, lines 67-69):
`peak ≥ grid_import[t]` for each `t`, exactly when demand charges are
enabled. -/
def build_peak_constraints (demand_charge_enabled : Bool) (T : ℕ) :
    List (DispatchAssign → Prop) :=
  if demand_charge_enabled then
    (List.range T).map (fun t σ => σ.peak_demand ≥ σ.grid_import t)
  else []

/-- The objective exactly as `build_model` installs it (`model/build.py`,
lines 71-87): the demand rate is passed as `0.0` and no peak variable is
given when demand charges are disabled. -/
def build_model_objective (T : ℕ) (import_price export_price : ℕ → ℚ)
    (timestep_hours degradation_rate demand_rate : ℚ)
    (demand_charge_enabled : Bool) : LinObjective :=
  add_objective T import_price export_price timestep_hours degradation_rate
    (if demand_charge_enabled then demand_rate else 0) demand_charge_enabled

/-- The objective formula as the specification words it:
`Σ import·price_import·Δt − Σ export·price_export·Δt +
degradation_rate·Σ(charge+discharge)·Δt [+ peak·demand_rate]`. -/
def specObjectiveValue (T : ℕ) (import_price export_price : ℕ → ℚ)
    (timestep_hours degradation_rate demand_rate : ℚ)
    (demand_charge_enabled : Bool) (σ : DispatchAssign) : ℚ :=
  (∑ t ∈ Finset.range T, σ.grid_import t * import_price t * timestep_hours)
    - (∑ t ∈ Finset.range T, σ.grid_export t * export_price t * timestep_hours)
    + degradation_rate
      * (∑ t ∈ Finset.range T,
          (σ.battery_charge t + σ.battery_discharge t) * timestep_hours)
    + (if demand_charge_enabled then σ.peak_demand * demand_rate else 0)

/-- A point on the Pareto front (`multi_objective_bess.py`, `ParetoPoint`). -/
structure ParetoPoint where
  energy_cost : ℚ
  peak_demand_kw : ℚ
  total_cost : ℚ
  dispatch : Option (List (List ℚ))
  deriving DecidableEq

/-- Python's `min(iterable, key=f)` over a list of Pareto points: the
first element attaining the minimal key (ties keep the earlier element),
`none` on an empty list (where Python raises). -/
def pymin (f : ParetoPoint → ℚ) : List ParetoPoint → Option ParetoPoint
  | [] => none
  | x :: xs => some (xs.foldl (fun best y => if f y < f best then y else best) x)

/-- Python's `min(...)` over a generator of rationals; `0` stands in for
the empty case, on which Python raises and which the theorems exclude. -/
def listMinQ : List ℚ → ℚ
  | [] => 0
  | x :: xs => xs.foldl min x

/-- Python's `max(...)` over a generator of rationals; `0` stands in for
the empty case, as in `listMinQ`. -/
def listMaxQ : List ℚ → ℚ
  | [] => 0
  | x :: xs => xs.foldl max x

/-- Embedding of `select_operating_point` from `multi_objective_bess.py`:
at preference 0.5 the minimum-total-cost point; otherwise the
minimum-score point for the min-max normalized weighted score with the
1e-9 degeneracy guard in each denominator. -/
def select_operating_point (front : List ParetoPoint) (preference : ℚ) :
    Option ParetoPoint :=
  if preference = 1 / 2 then
    pymin (fun p => p.total_cost) front
  else
    pymin (fun pt =>
      (1 - preference) * ((pt.energy_cost - listMinQ (front.map fun p => p.energy_cost))
          / (listMaxQ (front.map fun p => p.energy_cost)
              - listMinQ (front.map fun p => p.energy_cost) + 1 / 1000000000))
        + preference * ((pt.peak_demand_kw - listMinQ (front.map fun p => p.peak_demand_kw))
          / (listMaxQ (front.map fun p => p.peak_demand_kw)
              - listMinQ (front.map fun p => p.peak_demand_kw) + 1 / 1000000000))) front

/-- One iteration of the epsilon-sweep accumulation loop
(`multi_objective_bess.py`, lines 197-201): a solved point is appended
when the front is empty or its energy cost differs from the last accepted
point's by more than 1e-6; a failed solve (`none`) leaves the front
unchanged. -/
def sweepStep (front : List ParetoPoint) (point : Option ParetoPoint) :
    List ParetoPoint :=
  match point with
  | none => front
  | some p =>
    match front.getLast? with
    | none => front ++ [p]
    | some q =>
      if |p.energy_cost - q.energy_cost| > 1 / 1000000 then front ++ [p] else front

/-- The front built by the epsilon sweep, abstracted over the sequence of
solver outcomes along the epsilon grid. -/
def sweepFront (results : List (Option ParetoPoint)) : List ParetoPoint :=
  results.foldl sweepStep []

/-- Every two consecutive points of the list differ in energy cost by
strictly more than 1e-6. -/
def ConsecSeparated : List ParetoPoint → Prop
  | [] => True
  | [_] => True
  | a :: b :: rest =>
    |b.energy_cost - a.energy_cost| > 1 / 1000000 ∧ ConsecSeparated (b :: rest)

/-- Pareto point with low energy cost and high peak. -/
def pLow : ParetoPoint := ⟨10, 8, 130, none⟩

/-- Pareto point with higher energy cost and lower peak. -/
def pHigh : ParetoPoint := ⟨12, 5, 87, none⟩

lemma ite_some_none_iff (p : Prop) [Decidable p] (m : String) (rest : Option String) :
    (if p then some m else rest) = none ↔ ¬p ∧ rest = none := by
  split <;> simp_all

lemma validate_eq_none_iff (df : List DispatchRow) (site : SiteConfig) :
    validate_dispatch_result df site = none ↔ CheckedBounds df site := by
  unfold validate_dispatch_result CheckedBounds
  cases himp : site.max_grid_import_kw <;> cases hexp : site.max_grid_export_kw <;>
    simp only [himp, hexp, ite_some_none_iff, List.any_eq_true, decide_eq_true_eq,
      not_exists, not_and, not_lt, not_false_iff, and_true, Option.some.injEq,
      reduceCtorEq, false_implies, forall_const, forall_eq']

/-- C1 counterexample: `validate_dispatch_result` accepts (returns
without raising on) a dispatch whose per-step energy balance is violated
by 5 kW, so it does not re-derive the energy-balance invariant and does
not raise exactly when an invariant of the data model is violated. -/
theorem C1_counterexample :
    validate_dispatch_result [unbalancedRow] exampleSite = none ∧
    ¬|balanceResidual unbalancedRow| < NUMERICAL_TOLERANCE := by
  constructor
  · refine (validate_eq_none_iff _ _).mpr ?_
    refine ⟨?_, ?_, ?_, ?_, ?_, ?_, ?_, ?_, ?_, ?_⟩ <;>
      simp [unbalancedRow, exampleSite, exampleBattery, NUMERICAL_TOLERANCE] <;>
      norm_num
  · norm_num [balanceResidual, unbalancedRow, NUMERICAL_TOLERANCE]

/-- C1 (amended): `validate_dispatch_result` raises `ValidationError`
exactly when one of the bounds it actually re-derives is violated beyond
the 1e-6 tolerance — non-negativity of the four power columns, SOC within
`[min_soc, max_soc]`, charge/discharge within their power limits, and
grid flows within the site caps when set — naming the violated quantity;
it does not check the per-step energy balance or the SOC dynamics
recurrence. -/
theorem C1_validator_checks_exactly_bounds (df : List DispatchRow) (site : SiteConfig) :
    (validate_dispatch_result df site = none ↔ CheckedBounds df site) ∧
    (¬CheckedBounds df site → ∃ msg, validate_dispatch_result df site = some msg) := by
  refine ⟨validate_eq_none_iff df site, fun h => ?_⟩
  rcases hv : validate_dispatch_result df site with - | msg
  · exact absurd ((validate_eq_none_iff df site).mp hv) h
  · exact ⟨msg, rfl⟩

/-- Witness for C1: the amended theorem applied at a concrete dispatch
and site, concluding that the validator accepts it. -/
theorem C1_witness : validate_dispatch_result [unbalancedRow] exampleSite = none :=
  (C1_validator_checks_exactly_bounds [unbalancedRow] exampleSite).1.mpr
    (by
      refine ⟨?_, ?_, ?_, ?_, ?_, ?_, ?_, ?_, ?_, ?_⟩ <;>
        simp [unbalancedRow, exampleSite, exampleBattery, NUMERICAL_TOLERANCE] <;>
        norm_num)

lemma clampSoc_eq (b : BatteryConfig) (x : ℚ)
    (h1 : b.min_soc_frac * b.capacity_kwh ≤ x)
    (h2 : x ≤ b.max_soc_frac * b.capacity_kwh) : clampSoc b x = x := by
  unfold clampSoc
  rw [min_eq_right h2, max_eq_right h1]

lemma baselineFlows_props (b : BatteryConfig) (dt soc : ℚ) (row : InputRow)
    (hdt : 0 < dt) (hec : 0 < b.charge_efficiency) (hed : 0 < b.discharge_efficiency)
    (hmck : 0 ≤ b.max_charge_kw) (hmdk : 0 ≤ b.max_discharge_kw)
    (hlo : b.min_soc_frac * b.capacity_kwh ≤ soc)
    (hhi : soc ≤ b.max_soc_frac * b.capacity_kwh) :
    0 ≤ (baselineFlows b dt soc row).1 ∧
    (baselineFlows b dt soc row).1 ≤ b.max_charge_kw ∧
    0 ≤ (baselineFlows b dt soc row).2.1 ∧
    (baselineFlows b dt soc row).2.1 ≤ b.max_discharge_kw ∧
    0 ≤ (baselineFlows b dt soc row).2.2.1 ∧
    0 ≤ (baselineFlows b dt soc row).2.2.2 ∧
    b.min_soc_frac * b.capacity_kwh
      ≤ soc + (baselineFlows b dt soc row).1 * dt * b.charge_efficiency
          - (baselineFlows b dt soc row).2.1 * dt / b.discharge_efficiency ∧
    soc + (baselineFlows b dt soc row).1 * dt * b.charge_efficiency
        - (baselineFlows b dt soc row).2.1 * dt / b.discharge_efficiency
      ≤ b.max_soc_frac * b.capacity_kwh := by
  have hdenc : 0 < dt * b.charge_efficiency := by positivity
  have hdend : 0 < dt / b.discharge_efficiency := by positivity
  unfold baselineFlows
  split
  case isTrue hnet =>
    dsimp only
    have hch0 : 0 ≤ baselineCharge b dt soc (row.pv_kw - row.load_kw) := by
      refine le_min hnet.le (le_min hmck (div_nonneg (by linarith) hdenc.le))
    have hchmck : baselineCharge b dt soc (row.pv_kw - row.load_kw) ≤ b.max_charge_kw :=
      (min_le_right _ _).trans (min_le_left _ _)
    have hchnet : baselineCharge b dt soc (row.pv_kw - row.load_kw)
        ≤ row.pv_kw - row.load_kw := min_le_left _ _
    have hchhead : baselineCharge b dt soc (row.pv_kw - row.load_kw)
        * (dt * b.charge_efficiency) ≤ b.max_soc_frac * b.capacity_kwh - soc :=
      (le_div_iff₀ hdenc).mp ((min_le_right _ _).trans (min_le_right _ _))
    have hassoc : baselineCharge b dt soc (row.pv_kw - row.load_kw) * dt * b.charge_efficiency
        = baselineCharge b dt soc (row.pv_kw - row.load_kw) * (dt * b.charge_efficiency) := by
      ring
    have hchpos : 0 ≤ baselineCharge b dt soc (row.pv_kw - row.load_kw)
        * dt * b.charge_efficiency := by positivity
    refine ⟨hch0, hchmck, le_refl 0, hmdk, le_refl 0, by linarith, ?_, ?_⟩ <;>
      simp only [zero_mul, zero_div, sub_zero] <;> linarith
  case isFalse hnet =>
    dsimp only
    have hdef : 0 ≤ -(row.pv_kw - row.load_kw) := by linarith [not_lt.mp hnet]
    have hdis0 : 0 ≤ baselineDischarge b dt soc (-(row.pv_kw - row.load_kw)) :=
      le_min hdef (le_min hmdk (div_nonneg (by linarith) hdend.le))
    have hdismdk : baselineDischarge b dt soc (-(row.pv_kw - row.load_kw))
        ≤ b.max_discharge_kw := (min_le_right _ _).trans (min_le_left _ _)
    have hdisdef : baselineDischarge b dt soc (-(row.pv_kw - row.load_kw))
        ≤ -(row.pv_kw - row.load_kw) := min_le_left _ _
    have hdisavail : baselineDischarge b dt soc (-(row.pv_kw - row.load_kw))
        * (dt / b.discharge_efficiency) ≤ soc - b.min_soc_frac * b.capacity_kwh :=
      (le_div_iff₀ hdend).mp ((min_le_right _ _).trans (min_le_right _ _))
    have hassoc : baselineDischarge b dt soc (-(row.pv_kw - row.load_kw)) * dt
        / b.discharge_efficiency
        = baselineDischarge b dt soc (-(row.pv_kw - row.load_kw))
          * (dt / b.discharge_efficiency) := by
      ring
    have hdispos : 0 ≤ baselineDischarge b dt soc (-(row.pv_kw - row.load_kw))
        * (dt / b.discharge_efficiency) := by positivity
    refine ⟨le_refl 0, hmck, hdis0, hdismdk, by linarith, le_refl 0, ?_, ?_⟩ <;>
      simp only [zero_mul, zero_div, sub_zero] <;> linarith

lemma baselineStep_props (site : SiteConfig) (dt soc : ℚ) (row : InputRow)
    (hw : WellFormedSite site dt)
    (hlo : site.battery.min_soc_frac * site.battery.capacity_kwh ≤ soc)
    (hhi : soc ≤ site.battery.max_soc_frac * site.battery.capacity_kwh) :
    RowBounds (baselineStep site dt soc row) site ∧
    (baselineStep site dt soc row).soc_kwh
      = soc + (baselineStep site dt soc row).battery_charge_kw
            * site.battery.charge_efficiency * dt
          - (baselineStep site dt soc row).battery_discharge_kw
            * dt / site.battery.discharge_efficiency := by
  obtain ⟨hdt, hec, hed, hmck, hmdk, hci, hce⟩ := hw
  obtain ⟨h1, h2, h3, h4, h5, h6, h7, h8⟩ :=
    baselineFlows_props site.battery dt soc row hdt hec hed hmck hmdk hlo hhi
  have hclamp : clampSoc site.battery
      (soc + (baselineFlows site.battery dt soc row).1 * dt * site.battery.charge_efficiency
        - (baselineFlows site.battery dt soc row).2.1 * dt / site.battery.discharge_efficiency)
      = soc + (baselineFlows site.battery dt soc row).1 * dt * site.battery.charge_efficiency
        - (baselineFlows site.battery dt soc row).2.1 * dt / site.battery.discharge_efficiency :=
    clampSoc_eq _ _ h7 h8
  constructor
  · refine ⟨h1, h2, h3, h4, ?_, ?_, ?_, ?_, ?_, ?_⟩
    · rcases hcap : site.max_grid_import_kw with - | cap
      · simpa [baselineStep, applyCap, hcap] using h5
      · simp only [baselineStep, applyCap, hcap]
        exact le_min h5 (hci cap hcap)
    · rcases hcap : site.max_grid_export_kw with - | cap
      · simpa [baselineStep, applyCap, hcap] using h6
      · simp only [baselineStep, applyCap, hcap]
        exact le_min h6 (hce cap hcap)
    · simpa [baselineStep, hclamp] using h7
    · simpa [baselineStep, hclamp] using h8
    · intro c hc
      simp only [baselineStep, applyCap, hc]
      exact min_le_right _ _
    · intro c hc
      simp only [baselineStep, applyCap, hc]
      exact min_le_right _ _
  · simp only [baselineStep, hclamp]
    ring

lemma baselineLoop_props (site : SiteConfig) (dt : ℚ) (hw : WellFormedSite site dt) :
    ∀ (ts : List InputRow) (soc : ℚ),
      site.battery.min_soc_frac * site.battery.capacity_kwh ≤ soc →
      soc ≤ site.battery.max_soc_frac * site.battery.capacity_kwh →
      (∀ r ∈ baselineLoop site dt soc ts, RowBounds r site) ∧
      socChain site.battery dt soc (baselineLoop site dt soc ts)
  | [], soc, _, _ => by simp [baselineLoop, socChain]
  | row :: rest, soc, hlo, hhi => by
    obtain ⟨hrb, hrec⟩ := baselineStep_props site dt soc row hw hlo hhi
    have hlo' := hrb.2.2.2.2.2.2.1
    have hhi' := hrb.2.2.2.2.2.2.2.1
    obtain ⟨hall, hchain⟩ := baselineLoop_props site dt hw rest
      (baselineStep site dt soc row).soc_kwh hlo' hhi'
    refine ⟨?_, ?_⟩
    · intro r hr
      rcases List.mem_cons.mp hr with h | h
      · exact h ▸ hrb
      · exact hall r h
    · exact ⟨hrec, hchain⟩

/-- C5: in exact arithmetic the baseline dispatch satisfies the SOC
dynamics recurrence `soc[t] = soc[t-1] + charge[t]·η_c·Δt −
discharge[t]·Δt/η_d` at every step, with `initial_soc_frac·capacity` in
place of `soc[-1]`: the final clamp to `[min_soc, max_soc]` never changes
the value produced by the dynamics update, because charge and discharge
are already capped by the SOC headroom terms. -/
theorem C5_baseline_soc_recurrence (ts : List InputRow) (site : SiteConfig) (dt : ℚ)
    (hw : WellFormedSite site dt)
    (hlo : site.battery.min_soc_frac * site.battery.capacity_kwh
      ≤ site.battery.initial_soc_frac * site.battery.capacity_kwh)
    (hhi : site.battery.initial_soc_frac * site.battery.capacity_kwh
      ≤ site.battery.max_soc_frac * site.battery.capacity_kwh) :
    socChain site.battery dt (site.battery.initial_soc_frac * site.battery.capacity_kwh)
      (compute_baseline_dispatch ts site dt) :=
  (baselineLoop_props site dt hw ts _ hlo hhi).2

/-- Witness for C5 at a concrete timeseries, site and timestep. -/
theorem C5_witness :
    socChain exampleSite.battery (1 / 4)
      (exampleSite.battery.initial_soc_frac * exampleSite.battery.capacity_kwh)
      (compute_baseline_dispatch exampleTs exampleSite (1 / 4)) :=
  C5_baseline_soc_recurrence exampleTs exampleSite (1 / 4)
    (by refine ⟨by norm_num, ?_, ?_, ?_, ?_, ?_, ?_⟩ <;>
      simp [exampleSite, exampleBattery])
    (by norm_num [exampleSite, exampleBattery])
    (by norm_num [exampleSite, exampleBattery])

/-- C6: for well-formed input, every dispatch the baseline heuristic
produces satisfies all of the validator's hard bounds, so
`validate_dispatch_result` accepts it (returns without raising).  The
embedded heuristic is a total function, reflecting that the Python
baseline clamps rather than fails. -/
theorem C6_baseline_passes_validator (ts : List InputRow) (site : SiteConfig) (dt : ℚ)
    (hw : WellFormedSite site dt)
    (hlo : site.battery.min_soc_frac * site.battery.capacity_kwh
      ≤ site.battery.initial_soc_frac * site.battery.capacity_kwh)
    (hhi : site.battery.initial_soc_frac * site.battery.capacity_kwh
      ≤ site.battery.max_soc_frac * site.battery.capacity_kwh) :
    validate_dispatch_result (compute_baseline_dispatch ts site dt) site = none := by
  refine (validate_eq_none_iff _ _).mpr ?_
  obtain ⟨hall, -⟩ := baselineLoop_props site dt hw ts _ hlo hhi
  have htol : (0 : ℚ) < NUMERICAL_TOLERANCE := by norm_num [NUMERICAL_TOLERANCE]
  refine ⟨?_, ?_, ?_, ?_, ?_, ?_, ?_, ?_, ?_, ?_⟩
  · intro r hr; have h := (hall r hr).2.2.2.2.1; linarith
  · intro r hr; have h := (hall r hr).2.2.2.2.2.1; linarith
  · intro r hr; have h := (hall r hr).1; linarith
  · intro r hr; have h := (hall r hr).2.2.1; linarith
  · intro r hr; have h := (hall r hr).2.2.2.2.2.2.1; linarith
  · intro r hr; have h := (hall r hr).2.2.2.2.2.2.2.1; linarith
  · intro r hr; have h := (hall r hr).2.1; linarith
  · intro r hr; have h := (hall r hr).2.2.2.1; linarith
  · intro cap hc r hr; have h := (hall r hr).2.2.2.2.2.2.2.2.1 cap hc; linarith
  · intro cap hc r hr; have h := (hall r hr).2.2.2.2.2.2.2.2.2 cap hc; linarith

/-- Witness for C6 at a concrete timeseries, site and timestep. -/
theorem C6_witness :
    validate_dispatch_result (compute_baseline_dispatch exampleTs exampleSite (1 / 4))
      exampleSite = none :=
  C6_baseline_passes_validator exampleTs exampleSite (1 / 4)
    (by refine ⟨by norm_num, ?_, ?_, ?_, ?_, ?_, ?_⟩ <;>
      simp [exampleSite, exampleBattery])
    (by norm_num [exampleSite, exampleBattery])
    (by norm_num [exampleSite, exampleBattery])

/-- C2 evaluation at the failing input: with a binding 50 kW grid-import
cap and nothing for the battery to contribute, the baseline clamps the
grid import to 50 kW, leaving an energy-balance residual of 50 kW — far
beyond the 1e-6 bound the claim (and the sign-convention documentation in
`core/constants.py`) asserts for every dispatch. -/
theorem C2_grid_cap_breaks_energy_balance :
    (compute_baseline_dispatch [heavyLoadRow] cappedSite (1 / 4)).map balanceResidual
      = [50] ∧ ¬|(50 : ℚ)| < NUMERICAL_TOLERANCE := by
  constructor
  · norm_num [compute_baseline_dispatch, baselineLoop, baselineStep, baselineFlows,
      baselineDischarge, baselineCharge, applyCap, clampSoc, heavyLoadRow, cappedSite,
      cappedBattery, balanceResidual, min_def, max_def]
  · norm_num [NUMERICAL_TOLERANCE]

/-- C9: feeding the same dispatch to `compute_metrics` as both the
optimal and the baseline argument yields exactly zero savings and zero
peak reduction.  The dispatch is required to be nonempty because the
pandas peak (`.max()`) of an empty column is NaN. -/
theorem C9_metrics_self_roundtrip (d : List DispatchRow) (site : SiteConfig)
    (run : RunConfig) (dt : ℚ) (hne : d ≠ []) :
    (compute_metrics d d site run dt).savings_gbp = 0 ∧
    (compute_metrics d d site run dt).peak_reduction_kw = 0 := by
  unfold compute_metrics
  exact ⟨sub_self _, sub_self _⟩

/-- Witness for C9 at a concrete dispatch and configuration. -/
theorem C9_witness :
    (compute_metrics [unbalancedRow] [unbalancedRow] exampleSite exampleRun
      (1 / 4)).savings_gbp = 0 ∧
    (compute_metrics [unbalancedRow] [unbalancedRow] exampleSite exampleRun
      (1 / 4)).peak_reduction_kw = 0 :=
  C9_metrics_self_roundtrip [unbalancedRow] exampleSite exampleRun (1 / 4) (by simp)

/-- C3 counterexample: a solver exception and a non-optimal termination
status raise exceptions of the same Python class (`RuntimeError`), so a
caller cannot tell 'no feasible solution' from 'solver crashed' by the
exception type alone: no distinct `SolverError` / `InfeasibleError` types
exist in the code. -/
theorem C3_counterexample :
    solve_model (.raised "boom") = .error (.runtimeError "Solver failed: boom") ∧
    solve_model (.finished "infeasible")
      = .error (.runtimeError "Solver returned non-optimal status: infeasible") ∧
    errorClass (.runtimeError "Solver failed: boom")
      = errorClass (.runtimeError "Solver returned non-optimal status: infeasible") := by
  refine ⟨rfl, by simp [solve_model], rfl⟩

/-- C3 (amended): `solve_model` raises `RuntimeError` in both failure
modes — with message prefix "Solver failed: " when the underlying solver
raises, and "Solver returned non-optimal status: " when the solver
terminates with a status other than "ok" — and succeeds on status "ok";
the two failures are distinguishable only by message, not by exception
type. -/
theorem C3_solve_failures_share_exception_type (msg status : String) (h : status ≠ "ok") :
    solve_model (.raised msg) = .error (.runtimeError ("Solver failed: " ++ msg)) ∧
    solve_model (.finished status)
      = .error (.runtimeError ("Solver returned non-optimal status: " ++ status)) ∧
    errorClass (.runtimeError ("Solver failed: " ++ msg))
      = errorClass (.runtimeError ("Solver returned non-optimal status: " ++ status)) ∧
    solve_model (.finished "ok") = .ok () := by
  refine ⟨rfl, by simp [solve_model, h], rfl, by simp [solve_model]⟩

/-- Witness for C3's amended theorem at concrete strings. -/
theorem C3_witness :
    solve_model (.raised "boom") = .error (.runtimeError ("Solver failed: " ++ "boom")) ∧
    solve_model (.finished "warning")
      = .error (.runtimeError ("Solver returned non-optimal status: " ++ "warning")) ∧
    errorClass (.runtimeError ("Solver failed: " ++ "boom"))
      = errorClass (.runtimeError ("Solver returned non-optimal status: " ++ "warning")) ∧
    solve_model (.finished "ok") = .ok () :=
  C3_solve_failures_share_exception_type "boom" "warning" (by simp)

/-- C10: when the timeseries has a per-step price column, `build_model`
uses that column, whatever the flat tariff price is — the result does not
depend on the tariff at all — and the flat price is used only as a
fallback when the column is absent. -/
theorem C10_timeseries_price_precedence (col : List ℚ) (tariff tariff2 : TariffConfig)
    (n : ℕ) :
    resolve_import_price (some col) tariff n = .ok col ∧
    resolve_export_price (some col) tariff n = .ok col ∧
    resolve_import_price (some col) tariff n = resolve_import_price (some col) tariff2 n ∧
    resolve_export_price (some col) tariff n = resolve_export_price (some col) tariff2 n ∧
    (∀ p, tariff.flat_import_price_gbp_per_kwh = some p →
      resolve_import_price none tariff n = .ok (List.replicate n p)) ∧
    (∀ p, tariff.flat_export_price_gbp_per_kwh = some p →
      resolve_export_price none tariff n = .ok (List.replicate n p)) := by
  refine ⟨rfl, rfl, rfl, rfl, fun p hp => ?_, fun p hp => ?_⟩
  · simp [resolve_import_price, hp]
  · simp [resolve_export_price, hp]

/-- Witness for C10 at concrete data: a present column wins over a set
flat price, and the flat price is used when the column is absent. -/
theorem C10_witness :
    resolve_import_price (some [1, 2]) exampleRun.tariff 2 = .ok [1, 2] ∧
    resolve_import_price none exampleRun.tariff 2 = .ok (List.replicate 2 (3 / 20)) :=
  ⟨(C10_timeseries_price_precedence [1, 2] exampleRun.tariff exampleRun.tariff 2).1,
    (C10_timeseries_price_precedence [1, 2] exampleRun.tariff exampleRun.tariff 2).2.2.2.2.1
      (3 / 20) rfl⟩

/-- C4: on every assignment the objective installed by the builder equals
the specification's linear expression — with the `peak·demand_rate` term
present exactly when demand charges are enabled — its sense is minimize,
and when demand charges are enabled the builder introduces exactly one
extra scalar variable and exactly the `T` constraints
`peak ≥ import[t]` for `t < T`. -/
theorem C4_objective_matches_spec (T : ℕ) (import_price export_price : ℕ → ℚ)
    (timestep_hours degradation_rate demand_rate : ℚ)
    (demand_charge_enabled : Bool) (σ : DispatchAssign) :
    (build_model_objective T import_price export_price timestep_hours degradation_rate
        demand_rate demand_charge_enabled).value σ
      = specObjectiveValue T import_price export_price timestep_hours degradation_rate
          demand_rate demand_charge_enabled σ ∧
    (build_model_objective T import_price export_price timestep_hours degradation_rate
        demand_rate demand_charge_enabled).sense = .minimize ∧
    build_peak_var_count demand_charge_enabled
      = (if demand_charge_enabled then 1 else 0) ∧
    (build_peak_constraints demand_charge_enabled T).length
      = (if demand_charge_enabled then T else 0) ∧
    (∀ c ∈ build_peak_constraints demand_charge_enabled T,
      ∃ t, t < T ∧ c = fun σ2 => σ2.peak_demand ≥ σ2.grid_import t) ∧
    (∀ t, t < T → demand_charge_enabled = true →
      (fun σ2 => σ2.peak_demand ≥ σ2.grid_import t)
        ∈ build_peak_constraints demand_charge_enabled T) := by
  have hsum : ∑ t ∈ Finset.range T,
      (σ.battery_charge t + σ.battery_discharge t) * timestep_hours
        * degradation_rate
      = degradation_rate * ∑ t ∈ Finset.range T,
          (σ.battery_charge t + σ.battery_discharge t) * timestep_hours := by
    rw [Finset.mul_sum]
    exact Finset.sum_congr rfl fun t _ => by ring
  refine ⟨?_, rfl, rfl, ?_, ?_, ?_⟩
  · cases demand_charge_enabled <;>
      simp [build_model_objective, add_objective, specObjectiveValue, hsum]
  · cases demand_charge_enabled <;> simp [build_peak_constraints]
  · intro c hc
    cases demand_charge_enabled <;> simp [build_peak_constraints] at hc
    obtain ⟨t, ht, rfl⟩ := hc
    exact ⟨t, ht, rfl⟩
  · intro t ht henabled
    subst henabled
    simp only [build_peak_constraints, if_pos]
    exact List.mem_map.mpr ⟨t, List.mem_range.mpr ht, rfl⟩

/-- Witness for C4 at a concrete model size and assignment, with demand
charges enabled. -/
theorem C4_witness :
    (build_model_objective 2 (fun _ => 3 / 20) (fun _ => 1 / 20) (1 / 4) (1 / 100) 15
        true).value
      ⟨fun _ => 4, fun _ => 1, fun _ => 2, fun _ => 3, 6⟩
      = specObjectiveValue 2 (fun _ => 3 / 20) (fun _ => 1 / 20) (1 / 4) (1 / 100) 15
          true ⟨fun _ => 4, fun _ => 1, fun _ => 2, fun _ => 3, 6⟩ ∧
    (build_peak_constraints true 2).length = 2 :=
  ⟨(C4_objective_matches_spec 2 (fun _ => 3 / 20) (fun _ => 1 / 20) (1 / 4) (1 / 100) 15
      true ⟨fun _ => 4, fun _ => 1, fun _ => 2, fun _ => 3, 6⟩).1,
    (C4_objective_matches_spec 2 (fun _ => 3 / 20) (fun _ => 1 / 20) (1 / 4) (1 / 100) 15
      true ⟨fun _ => 4, fun _ => 1, fun _ => 2, fun _ => 3, 6⟩).2.2.2.1⟩

lemma foldlBest_spec (f : ParetoPoint → ℚ) :
    ∀ (xs : List ParetoPoint) (x : ParetoPoint),
      xs.foldl (fun best y => if f y < f best then y else best) x ∈ x :: xs ∧
      f (xs.foldl (fun best y => if f y < f best then y else best) x) ≤ f x ∧
      ∀ y ∈ xs, f (xs.foldl (fun best y => if f y < f best then y else best) x) ≤ f y
  | [], x => by simp
  | y :: ys, x => by
    by_cases hc : f y < f x
    · obtain ⟨hmem, hle, hall⟩ := foldlBest_spec f ys y
      simp only [List.foldl_cons, if_pos hc]
      refine ⟨List.mem_cons_of_mem _ hmem, by linarith, ?_⟩
      intro z hz
      rcases List.mem_cons.mp hz with h | h
      · exact h ▸ hle
      · exact hall z h
    · obtain ⟨hmem, hle, hall⟩ := foldlBest_spec f ys x
      simp only [List.foldl_cons, if_neg hc]
      refine ⟨?_, hle, ?_⟩
      · rcases List.mem_cons.mp hmem with h | h
        · rw [h]; exact List.mem_cons_self _ _
        · exact List.mem_cons_of_mem _ (List.mem_cons_of_mem _ h)
      · intro z hz
        rcases List.mem_cons.mp hz with h | h
        · exact h ▸ hle.trans (not_lt.mp hc)
        · exact hall z h

lemma pymin_spec (f : ParetoPoint → ℚ) (x : ParetoPoint) (xs : List ParetoPoint) :
    ∃ m, pymin f (x :: xs) = some m ∧ m ∈ x :: xs ∧ ∀ y ∈ x :: xs, f m ≤ f y := by
  obtain ⟨hmem, hle, hall⟩ := foldlBest_spec f xs x
  refine ⟨_, rfl, hmem, fun y hy => ?_⟩
  rcases List.mem_cons.mp hy with h | h
  · exact h ▸ hle
  · exact hall y h

lemma foldl_min_spec :
    ∀ (xs : List ℚ) (x : ℚ),
      xs.foldl min x ∈ x :: xs ∧ xs.foldl min x ≤ x ∧ ∀ y ∈ xs, xs.foldl min x ≤ y
  | [], x => by simp
  | y :: ys, x => by
    obtain ⟨hmem, hle, hall⟩ := foldl_min_spec ys (min x y)
    simp only [List.foldl_cons]
    refine ⟨?_, hle.trans (min_le_left _ _), ?_⟩
    · rcases List.mem_cons.mp hmem with h | h
      · rcases min_choice x y with hc | hc
        · rw [h, hc]; exact List.mem_cons_self _ _
        · rw [h, hc]; exact List.mem_cons_of_mem _ (List.mem_cons_self _ _)
      · exact List.mem_cons_of_mem _ (List.mem_cons_of_mem _ h)
    · intro z hz
      rcases List.mem_cons.mp hz with h | h
      · subst h; exact hle.trans (min_le_right _ _)
      · exact hall z h

lemma foldl_max_spec :
    ∀ (xs : List ℚ) (x : ℚ),
      xs.foldl max x ∈ x :: xs ∧ x ≤ xs.foldl max x ∧ ∀ y ∈ xs, y ≤ xs.foldl max x
  | [], x => by simp
  | y :: ys, x => by
    obtain ⟨hmem, hle, hall⟩ := foldl_max_spec ys (max x y)
    simp only [List.foldl_cons]
    refine ⟨?_, (le_max_left _ _).trans hle, ?_⟩
    · rcases List.mem_cons.mp hmem with h | h
      · rcases max_choice x y with hc | hc
        · rw [h, hc]; exact List.mem_cons_self _ _
        · rw [h, hc]; exact List.mem_cons_of_mem _ (List.mem_cons_self _ _)
      · exact List.mem_cons_of_mem _ (List.mem_cons_of_mem _ h)
    · intro z hz
      rcases List.mem_cons.mp hz with h | h
      · subst h; exact (le_max_right _ _).trans hle
      · exact hall z h

lemma listMinQ_le (x : ℚ) (xs : List ℚ) (y : ℚ) (hy : y ∈ x :: xs) :
    listMinQ (x :: xs) ≤ y := by
  rcases List.mem_cons.mp hy with h | h
  · exact h ▸ (foldl_min_spec xs x).2.1
  · exact (foldl_min_spec xs x).2.2 y h

lemma listMinQ_mem (x : ℚ) (xs : List ℚ) : listMinQ (x :: xs) ∈ x :: xs :=
  (foldl_min_spec xs x).1

lemma listMaxQ_ge (x : ℚ) (xs : List ℚ) (y : ℚ) (hy : y ∈ x :: xs) :
    y ≤ listMaxQ (x :: xs) := by
  rcases List.mem_cons.mp hy with h | h
  · exact h ▸ (foldl_max_spec xs x).2.1
  · exact (foldl_max_spec xs x).2.2 y h

lemma pymin_linear_div (c D : ℚ) (hD : 0 < D) (g sc : ParetoPoint → ℚ)
    (hsc : ∀ pt, sc pt = (g pt - c) / D) (x : ParetoPoint) (xs : List ParetoPoint) :
    ∃ m, pymin sc (x :: xs) = some m ∧ m ∈ x :: xs ∧ ∀ y ∈ x :: xs, g m ≤ g y := by
  obtain ⟨m, hm, hmem, hall⟩ := pymin_spec sc x xs
  refine ⟨m, hm, hmem, fun y hy => ?_⟩
  have h := hall y hy
  rw [hsc m, hsc y] at h
  have h2 := mul_le_mul_of_nonneg_right h hD.le
  rw [div_mul_cancel₀ _ hD.ne', div_mul_cancel₀ _ hD.ne'] at h2
  linarith

/-- C7: on a non-empty front, preference 0 selects a point of globally
minimal energy cost and preference 1 selects a point of globally minimal
peak demand. -/
theorem C7_selection_boundary (front : List ParetoPoint) (hne : front ≠ []) :
    ∃ pe pp,
      select_operating_point front 0 = some pe ∧
      pe.energy_cost = listMinQ (front.map fun p => p.energy_cost) ∧
      select_operating_point front 1 = some pp ∧
      pp.peak_demand_kw = listMinQ (front.map fun p => p.peak_demand_kw) := by
  obtain ⟨x, xs, rfl⟩ := List.exists_cons_of_ne_nil hne
  have hcons_e : (x :: xs).map (fun p => p.energy_cost)
      = x.energy_cost :: xs.map (fun p => p.energy_cost) := List.map_cons _ _ _
  have hcons_p : (x :: xs).map (fun p => p.peak_demand_kw)
      = x.peak_demand_kw :: xs.map (fun p => p.peak_demand_kw) := List.map_cons _ _ _
  have h9 : (0 : ℚ) < 1 / 1000000000 := by norm_num
  have hee : listMinQ ((x :: xs).map fun p => p.energy_cost)
      ≤ listMaxQ ((x :: xs).map fun p => p.energy_cost) := by
    rw [hcons_e]
    exact (listMinQ_le _ _ _ (List.mem_cons_self _ _)).trans
      (listMaxQ_ge _ _ _ (List.mem_cons_self _ _))
  have hDe : 0 < listMaxQ ((x :: xs).map fun p => p.energy_cost)
      - listMinQ ((x :: xs).map fun p => p.energy_cost) + 1 / 1000000000 := by linarith
  have hppb : listMinQ ((x :: xs).map fun p => p.peak_demand_kw)
      ≤ listMaxQ ((x :: xs).map fun p => p.peak_demand_kw) := by
    rw [hcons_p]
    exact (listMinQ_le _ _ _ (List.mem_cons_self _ _)).trans
      (listMaxQ_ge _ _ _ (List.mem_cons_self _ _))
  have hDp : 0 < listMaxQ ((x :: xs).map fun p => p.peak_demand_kw)
      - listMinQ ((x :: xs).map fun p => p.peak_demand_kw) + 1 / 1000000000 := by linarith
  obtain ⟨pe, hpe, hpeMem, hpeLe⟩ :=
    pymin_linear_div
      (listMinQ ((x :: xs).map fun p => p.energy_cost))
      (listMaxQ ((x :: xs).map fun p => p.energy_cost)
        - listMinQ ((x :: xs).map fun p => p.energy_cost) + 1 / 1000000000)
      hDe (fun p => p.energy_cost)
      (fun pt =>
        (1 - (0 : ℚ))
            * ((pt.energy_cost - listMinQ ((x :: xs).map fun p => p.energy_cost))
              / (listMaxQ ((x :: xs).map fun p => p.energy_cost)
                  - listMinQ ((x :: xs).map fun p => p.energy_cost) + 1 / 1000000000))
          + 0 * ((pt.peak_demand_kw - listMinQ ((x :: xs).map fun p => p.peak_demand_kw))
              / (listMaxQ ((x :: xs).map fun p => p.peak_demand_kw)
                  - listMinQ ((x :: xs).map fun p => p.peak_demand_kw) + 1 / 1000000000)))
      (fun pt => by ring) x xs
  obtain ⟨pp, hpp, hppMem, hppLe⟩ :=
    pymin_linear_div
      (listMinQ ((x :: xs).map fun p => p.peak_demand_kw))
      (listMaxQ ((x :: xs).map fun p => p.peak_demand_kw)
        - listMinQ ((x :: xs).map fun p => p.peak_demand_kw) + 1 / 1000000000)
      hDp (fun p => p.peak_demand_kw)
      (fun pt =>
        (1 - (1 : ℚ))
            * ((pt.energy_cost - listMinQ ((x :: xs).map fun p => p.energy_cost))
              / (listMaxQ ((x :: xs).map fun p => p.energy_cost)
                  - listMinQ ((x :: xs).map fun p => p.energy_cost) + 1 / 1000000000))
          + 1 * ((pt.peak_demand_kw - listMinQ ((x :: xs).map fun p => p.peak_demand_kw))
              / (listMaxQ ((x :: xs).map fun p => p.peak_demand_kw)
                  - listMinQ ((x :: xs).map fun p => p.peak_demand_kw) + 1 / 1000000000)))
      (fun pt => by ring) x xs
  refine ⟨pe, pp, ?_, ?_, ?_, ?_⟩
  · unfold select_operating_point
    rw [if_neg (by norm_num : ¬(0 : ℚ) = 1 / 2)]
    exact hpe
  · refine le_antisymm ?_ ?_
    · have hmem2 := listMinQ_mem x.energy_cost (xs.map fun p => p.energy_cost)
      rw [← hcons_e] at hmem2
      obtain ⟨q, hq, hq2⟩ := List.mem_map.mp hmem2
      exact hq2 ▸ hpeLe q hq
    · have hm : pe.energy_cost ∈ (x :: xs).map fun p => p.energy_cost :=
        List.mem_map_of_mem _ hpeMem
      rw [hcons_e] at hm ⊢
      exact listMinQ_le _ _ _ hm
  · unfold select_operating_point
    rw [if_neg (by norm_num : ¬(1 : ℚ) = 1 / 2)]
    exact hpp
  · refine le_antisymm ?_ ?_
    · have hmem2 := listMinQ_mem x.peak_demand_kw (xs.map fun p => p.peak_demand_kw)
      rw [← hcons_p] at hmem2
      obtain ⟨q, hq, hq2⟩ := List.mem_map.mp hmem2
      exact hq2 ▸ hppLe q hq
    · have hm : pp.peak_demand_kw ∈ (x :: xs).map fun p => p.peak_demand_kw :=
        List.mem_map_of_mem _ hppMem
      rw [hcons_p] at hm ⊢
      exact listMinQ_le _ _ _ hm

/-- Witness for C7 at a concrete two-point front. -/
theorem C7_witness :
    ∃ pe pp,
      select_operating_point [pLow, pHigh] 0 = some pe ∧
      pe.energy_cost = listMinQ ([pLow, pHigh].map fun p => p.energy_cost) ∧
      select_operating_point [pLow, pHigh] 1 = some pp ∧
      pp.peak_demand_kw = listMinQ ([pLow, pHigh].map fun p => p.peak_demand_kw) :=
  C7_selection_boundary [pLow, pHigh] (by simp)

lemma getLast?_cons_ne_none (a : ParetoPoint) (l : List ParetoPoint) :
    (a :: l).getLast? ≠ none := by
  induction l generalizing a with
  | nil => simp
  | cons b m ih => rw [List.getLast?_cons_cons]; exact ih b

lemma consecSeparated_append (p : ParetoPoint) :
    ∀ l : List ParetoPoint, ConsecSeparated l →
      (∀ q, l.getLast? = some q → |p.energy_cost - q.energy_cost| > 1 / 1000000) →
      ConsecSeparated (l ++ [p])
  | [], _, _ => trivial
  | [a], _, h => ⟨h a (by simp), trivial⟩
  | a :: b :: rest, hcs, h => by
    refine ⟨hcs.1, consecSeparated_append p (b :: rest) hcs.2 ?_⟩
    intro q hq
    exact h q (by rw [List.getLast?_cons_cons]; exact hq)

lemma sweepStep_preserves (front : List ParetoPoint) (pt : Option ParetoPoint)
    (h : ConsecSeparated front) : ConsecSeparated (sweepStep front pt) := by
  cases pt with
  | none => exact h
  | some p =>
    cases front with
    | nil => trivial
    | cons a l =>
      rcases hq : (a :: l).getLast? with - | q
      · exact absurd hq (getLast?_cons_ne_none a l)
      · unfold sweepStep
        simp only [hq]
        split_ifs with hgt
        · refine consecSeparated_append p _ h fun q' hq' => ?_
          rw [hq] at hq'
          injection hq' with e
          subst e
          exact hgt
        · exact h

lemma sweepFront_consec :
    ∀ (results : List (Option ParetoPoint)) (front : List ParetoPoint),
      ConsecSeparated front → ConsecSeparated (results.foldl sweepStep front)
  | [], _, h => h
  | r :: rs, front, h =>
    sweepFront_consec rs (sweepStep front r) (sweepStep_preserves front r h)

/-- C8: in the epsilon sweep, a solved point is appended to the front
exactly when the front is empty or its energy cost differs from the last
accepted point's by strictly more than 1e-6; consequently, whatever the
solver returns along the sweep, every two consecutive points of the
returned front differ in energy cost by more than 1e-6. -/
theorem C8_sweep_dedup :
    (∀ (front : List ParetoPoint) (p : ParetoPoint),
      sweepStep front (some p) = front ++ [p] ↔
        (front = [] ∨ ∃ q, front.getLast? = some q ∧
          |p.energy_cost - q.energy_cost| > 1 / 1000000)) ∧
    (∀ results : List (Option ParetoPoint), ConsecSeparated (sweepFront results)) := by
  constructor
  · intro front p
    cases front with
    | nil => exact iff_of_true rfl (Or.inl rfl)
    | cons a l =>
      rcases hq : (a :: l).getLast? with - | q
      · exact absurd hq (getLast?_cons_ne_none a l)
      · unfold sweepStep
        simp only [hq]
        split_ifs with hgt
        · exact iff_of_true rfl (Or.inr ⟨q, rfl, hgt⟩)
        · constructor
          · intro heq
            have hlen := congrArg List.length heq
            simp at hlen
          · rintro (h | ⟨q', hq', hgt'⟩)
            · exact absurd h (by simp)
            · injection hq' with e
              subst e
              exact absurd hgt' hgt
  · intro results
    exact sweepFront_consec results [] trivial

/-- Witness for C8: appending happens at a concrete front and point whose
energy costs differ by 2. -/
theorem C8_witness : sweepStep [pLow] (some pHigh) = [pLow] ++ [pHigh] :=
  (C8_sweep_dedup.1 [pLow] pHigh).mpr
    (Or.inr ⟨pLow, by simp, by
      show |pHigh.energy_cost - pLow.energy_cost| > 1 / 1000000
      rw [show pHigh.energy_cost - pLow.energy_cost = 2 from by norm_num [pLow, pHigh],
        abs_of_pos (by norm_num : (0 : ℚ) < 2)]
      norm_num⟩)

end GridQ
